import Mathlib

/-!
Shallow embedding of `src/tool_duo.py` (AutoFarm CLI): the resilient HTTP
retry layer (`DuoClient._request`), the strategy operations
(`farm_xp_once`, `farm_gem_once`, `streak_bump_once`, `streak_repair`),
the per-profile worker loop (`AutoFarmCLI._profile_loop`), the goal check
(`AutoFarmCLI._check_targets`) and the command dispatcher
(`AutoFarmCLI._handle_cmd`).

Conventions of the embedding:
* Python floats that only ever hold small decimal constants and their
  sums/products are modelled as rationals (`ℚ`).
* HTTP traffic is modelled by oracles: a stream `Nat → HttpTry α` gives the
  outcome of the n-th attempted request of one `_request` call, where the
  payload `α` is the already-parsed piece of the response body that the
  caller reads.  A raised `httpx.HTTPError` is `HttpTry.transportError`;
  an exception that propagates to a caller is `Except.error ()`.
* `random.uniform(-0.08, 0.12)` is modelled by an explicit jitter
  parameter `j` ranging over the interval `[jitter_lo, jitter_hi]`.
-/

namespace ToolDuo

/-- Config constant `DEFAULT_DELAY = 0.8` from the source. -/
def DEFAULT_DELAY : ℚ := 0.8

/-- Config constant `GLOBAL_MIN_DELAY = 0.4` from the source. -/
def GLOBAL_MIN_DELAY : ℚ := 0.4

/-- Config constant `MAX_RETRIES = 4` from the source. -/
def MAX_RETRIES : Nat := 4

/-- Config constant `BACKOFF_CAP = 7.5` from the source. -/
def BACKOFF_CAP : ℚ := 7.5

/-- Lower bound of `random.uniform(-0.08, 0.12)` in `_sleep_with_jitter`. -/
def jitter_lo : ℚ := -0.08

/-- Upper bound of `random.uniform(-0.08, 0.12)` in `_sleep_with_jitter`. -/
def jitter_hi : ℚ := 0.12

/-- Embeds `_sleep_with_jitter(base)`: the slept duration is
`max(GLOBAL_MIN_DELAY, base + random.uniform(-0.08, 0.12))`; the random
draw is the explicit parameter `j`. -/
def sleep_with_jitter (base j : ℚ) : ℚ := max GLOBAL_MIN_DELAY (base + j)

/-- A duration `d` is a possible outcome of `_sleep_with_jitter base` for
some admissible jitter draw. -/
def possible_sleep (base d : ℚ) : Prop :=
  ∃ j, jitter_lo ≤ j ∧ j ≤ jitter_hi ∧ d = sleep_with_jitter base j

/-- Numeric value of a string of decimal digits (used for Python
`float(ra)` on a string that passed `ra.isdigit()`). -/
def digits_val (l : List Char) : Nat := l.foldl (fun n c => 10 * n + (c.toNat - 48)) 0

/-- Embeds Python `str.isdigit()` restricted to ASCII digits: true iff the
string is nonempty and all characters are digits. -/
def py_isdigit (s : String) : Bool := !s.toList.isEmpty && s.toList.all Char.isDigit

/-- Accumulator worker for `py_split`: splits a character list on runs of
blanks, dropping empty pieces. -/
def split_acc : List Char → List Char → List String
  | [], acc => if acc.isEmpty then [] else [String.mk acc.reverse]
  | c :: rest, acc =>
      if c = ' ' then
        if acc.isEmpty then split_acc rest []
        else String.mk acc.reverse :: split_acc rest []
      else split_acc rest (c :: acc)

/-- Embeds Python `cmd.split()` (for the space-separated operator
commands): split on blank runs, no empty tokens. -/
def py_split (s : String) : List String := split_acc s.toList []

/-- Embeds Python `s.startswith(pre)`. -/
def py_startswith (s pre : String) : Bool := pre.toList.isPrefixOf s.toList

/-- Embeds Python `s[:n]` (first `n` characters). -/
def py_take (s : String) (n : Nat) : String := String.mk (s.toList.take n)

/-- Character-list worker for `after_first_eq`: everything after the
first `=`. -/
def after_eq_chars : List Char → List Char
  | [] => []
  | '=' :: rest => rest
  | _ :: rest => after_eq_chars rest

/-- Embeds Python `int(s)` on a whitespace-free token: optional sign
followed by a nonempty digit run; `none` models a raised `ValueError`.
(Python also accepts underscore digit separators; no claim depends on
that.) -/
def pyInt (s : String) : Option Int :=
  match s.toList with
  | [] => none
  | '-' :: rest =>
      if rest.isEmpty then none
      else if rest.all Char.isDigit then some (-(digits_val rest : Int)) else none
  | '+' :: rest =>
      if rest.isEmpty then none
      else if rest.all Char.isDigit then some ((digits_val rest : Int)) else none
  | l => if l.all Char.isDigit then some ((digits_val l : Int)) else none

/-- Outcome of one attempted HTTP request inside `DuoClient._request`:
either a response (status, optional `Retry-After` header, parsed payload)
or a raised `httpx.HTTPError`. -/
inductive HttpTry (α : Type) where
  | resp (status : Nat) (retryAfter : Option String) (payload : α)
  | transportError
deriving Repr

/-- Embeds the test `r.status_code in (429, 500, 502, 503, 504)`. -/
def isRetryableStatus (s : Nat) : Bool :=
  s == 429 || s == 500 || s == 502 || s == 503 || s == 504

/-- Wait base passed to `_sleep_with_jitter` after a retryable status on
retry number `tries` (the post-increment value of `tries` in the source):
the integer `Retry-After` header value if present, else
`min(BACKOFF_CAP, 0.7 * 2 ** (tries - 1))`. -/
def statusWait (ra : Option String) (tries : Nat) : ℚ :=
  match ra with
  | some s =>
      if py_isdigit s then ((digits_val s.toList : Nat) : ℚ)
      else min BACKOFF_CAP (0.7 * 2 ^ (tries - 1))
  | none => min BACKOFF_CAP (0.7 * 2 ^ (tries - 1))

/-- Wait base passed to `_sleep_with_jitter` after a transport error on
retry number `tries`: `min(BACKOFF_CAP, 0.5 * 2 ** (tries - 1))`. -/
def transportWait (tries : Nat) : ℚ := min BACKOFF_CAP (0.5 * 2 ^ (tries - 1))

/-- Result of one `DuoClient._request` call: the value returned to the
caller (or a re-raised transport error), the number of HTTP attempts
issued, and the list of wait bases handed to `_sleep_with_jitter`
between attempts. -/
structure ReqOut (α : Type) where
  result : Except Unit (Nat × α)
  attempts : Nat
  waitBases : List ℚ
deriving Repr

/-- Embeds the retry loop of `DuoClient._request`.  `idx` is the index of
the next request in the stream; `fuel` is `MAX_RETRIES - tries`, the
number of retries still allowed.  When `fuel = 0`, a retryable status is
returned as-is (the source's `tries > MAX_RETRIES` branch) and a
transport error is re-raised. -/
def requestGo {α : Type} (stream : Nat → HttpTry α) : Nat → Nat → ReqOut α
  | idx, 0 =>
      match stream idx with
      | .resp s _ p => ⟨.ok (s, p), idx + 1, []⟩
      | .transportError => ⟨.error (), idx + 1, []⟩
  | idx, fuel + 1 =>
      match stream idx with
      | .resp s ra p =>
          if isRetryableStatus s then
            let rest := requestGo stream (idx + 1) fuel
            ⟨rest.result, rest.attempts, statusWait ra (MAX_RETRIES - fuel) :: rest.waitBases⟩
          else ⟨.ok (s, p), idx + 1, []⟩
      | .transportError =>
          let rest := requestGo stream (idx + 1) fuel
          ⟨rest.result, rest.attempts, transportWait (MAX_RETRIES - fuel) :: rest.waitBases⟩

/-- Embeds `DuoClient._request`: the retry loop started with `tries = 0`
on the first request of the stream. -/
def duo_request {α : Type} (stream : Nat → HttpTry α) : ReqOut α :=
  requestGo stream 0 MAX_RETRIES

/-- Embeds the `UserInfo` dataclass.  `streakData` abstracts the opaque
raw mapping to the only piece the code reads: the `currentStreak` entry,
reduced to the timestamps `_to_ts(startDate)` and `_to_ts(endDate)`
(ISO-date parsing with a now-fallback happens before this boundary);
`none` models a missing or falsy `currentStreak`. -/
structure UserInfo where
  username : String := "?"
  fromLanguage : String := "?"
  learningLanguage : String := "?"
  streak : Int := 0
  totalXp : Int := 0
  gems : Int := 0
  streakData : Option (Int × Int) := none
deriving DecidableEq, Repr

/-- Embeds Python truthiness of `self.sub` (an `Optional[str]`): `None`
and the empty string are falsy. -/
def optStrTruthy : Option String → Bool
  | none => false
  | some s => s ≠ ""

/-- Embeds `DuoClient.get_user_info`: returns `None` with no HTTP request
when `self.sub` is falsy; otherwise issues one `_request` and parses the
body on status 200.  The second component counts HTTP attempts issued. -/
def get_user_info (sub : Option String) (stream : Nat → HttpTry UserInfo) :
    Except Unit (Option UserInfo) × Nat :=
  if optStrTruthy sub then
    let r := duo_request stream
    match r.result with
    | .error e => (.error e, r.attempts)
    | .ok (s, u) => if s == 200 then (.ok (some u), r.attempts) else (.ok none, r.attempts)
  else (.ok none, 0)

/-- Embeds `DuoClient.farm_gem_once`: returns `False` without a request
unless `self.sub and self.user` is truthy, else issues the reward PATCH
and reports `status == 200`. -/
def farm_gem_once (sub : Option String) (user : Option UserInfo)
    (stream : Nat → HttpTry Unit) : Except Unit Bool :=
  if optStrTruthy sub && user.isSome then
    match (duo_request stream).result with
    | .error e => .error e
    | .ok (s, _) => .ok (s == 200)
  else .ok false

/-- Embeds `DuoClient.farm_xp_once`: returns `0` without a request when
`self.user` is absent; on a 200 response returns the parsed `awardedXp`
(the stream payload, with the source's `or 0` defaulting already
applied); on any other status returns `0`. -/
def farm_xp_once (user : Option UserInfo) (stream : Nat → HttpTry Int) :
    Except Unit Int :=
  match user with
  | none => .ok 0
  | some _ =>
      match (duo_request stream).result with
      | .error e => .error e
      | .ok (s, xp) => .ok (if s == 200 then xp else 0)

/-- Embeds `DuoClient._create_session`.  The payload of a 200 response is
the session JSON reduced to what later code reads: `none` for a falsy
(empty) JSON object, `some idOpt` for a truthy object whose `id` field is
`idOpt`.  A non-200 status yields `None` as in the source. -/
def create_session (user : Option UserInfo)
    (stream : Nat → HttpTry (Option (Option String))) :
    Except Unit (Option (Option String)) :=
  match user with
  | none => .ok none
  | some _ =>
      match (duo_request stream).result with
      | .error e => .error e
      | .ok (s, j) => .ok (if s == 200 then j else none)

/-- Embeds `DuoClient._update_session`: a falsy session gives
`(False, "no_session")`, a session without an `id` gives
`(False, "no_session_id")`, otherwise the PUT is issued and a 200 gives
`(True, "ok")` while any other status gives
`(False, f"{status}:{body[:200]}")`.  The stream payload is the response
body text. -/
def update_session (sess : Option (Option String))
    (stream : Nat → HttpTry String) (_startTs _endTs : Int) :
    Except Unit (Bool × String) :=
  match sess with
  | none => .ok (false, "no_session")
  | some none => .ok (false, "no_session_id")
  | some (some _) =>
      match (duo_request stream).result with
      | .error e => .error e
      | .ok (s, body) =>
          .ok (if s == 200 then (true, "ok")
               else (false, toString s ++ ":" ++ py_take body 200))

/-- Embeds `DuoClient.streak_bump_once(ts)`: create a session, fail with
`"create_fail"` when it is absent or falsy, else finalize it with the
timestamp pair `(ts, ts + 60)`. -/
def streak_bump_once (user : Option UserInfo)
    (cStream : Nat → HttpTry (Option (Option String)))
    (uStream : Nat → HttpTry String) (ts : Int) : Except Unit (Bool × String) :=
  match create_session user cStream with
  | .error e => .error e
  | .ok none => .ok (false, "create_fail")
  | .ok (some j) => update_session (some j) uStream ts (ts + 60)

/-- Result of `DuoClient.streak_repair`: the count of successful
backfills, the summary reason, the in-memory streak counter after the
run, the backdated timestamps passed to `streak_bump_once` in order,
and the wait bases handed to `_sleep_with_jitter` after each attempt
(each equal to `self.delay`), in order. -/
structure RepairResult where
  worked : Nat
  reason : String
  finalStreak : Int
  attemptTs : List Int
  sleeps : List ℚ
deriving DecidableEq, Repr

/-- Embeds the `for i in range(need)` loop of `streak_repair`: attempt
`i` uses timestamp `now - (i+1)*86400`, a success increments both the
`worked` counter and the in-memory `self.user.streak`, and every
attempt ends with `_sleep_with_jitter(self.delay)`, recorded as the
wait base `delay` in the sleeps list.  `cr i` / `up i` are the request
streams of attempt `i`'s session create / finalize. -/
def repair_loop (u : UserInfo)
    (cr : Nat → Nat → HttpTry (Option (Option String)))
    (up : Nat → Nat → HttpTry String) (delay : ℚ) (now : Int) :
    Nat → Nat → Nat → Int → Except Unit (Nat × Int × List Int × List ℚ)
  | _, 0, worked, streak => .ok (worked, streak, [], [])
  | i, r + 1, worked, streak =>
      let ts := now - ((i : Int) + 1) * 86400
      match streak_bump_once (some u) (cr i) (up i) ts with
      | .error e => .error e
      | .ok (ok, _) =>
          match repair_loop u cr up delay now (i + 1) r
              (if ok then worked + 1 else worked)
              (if ok then streak + 1 else streak) with
          | .error e => .error e
          | .ok (w, s, l, sl) => .ok (w, s, ts :: l, delay :: sl)

/-- Embeds `DuoClient.streak_repair`: `(0, "no_user")` without a user,
`(0, "no_currentStreak")` without streak metadata, else
`expected = max(1, (end - start) // 86400 + 1)` (Python floor division),
`need = max(0, expected - have)`, and `need` backfill attempts, each
followed by a jittered sleep on `self.delay` (the `delay` argument). -/
def streak_repair (user : Option UserInfo) (delay : ℚ) (now : Int)
    (cr : Nat → Nat → HttpTry (Option (Option String)))
    (up : Nat → Nat → HttpTry String) : Except Unit RepairResult :=
  match user with
  | none => .ok ⟨0, "no_user", 0, [], []⟩
  | some u =>
      match u.streakData with
      | none => .ok ⟨0, "no_currentStreak", u.streak, [], []⟩
      | some (startTs, endTs) =>
          let expected : Int := max 1 ((endTs - startTs).fdiv 86400 + 1)
          let need : Nat := (max 0 (expected - u.streak)).toNat
          match repair_loop u cr up delay now 0 need 0 u.streak with
          | .error e => .error e
          | .ok (w, s, l, sl) =>
              .ok ⟨w, if w == 0 then "no_change" else "ok", s, l, sl⟩

/-- Emoji `EMO["ok"]` used in status messages. -/
def EMO_ok : String := "🟢"

/-- Emoji `EMO["err"]` used in status messages. -/
def EMO_err : String := "🔴"

/-- Emoji `EMO["xp"]` used in status messages. -/
def EMO_xp : String := "⭐"

/-- Emoji `EMO["gem"]` used in status messages. -/
def EMO_gem : String := "💎"

/-- Emoji `EMO["streak"]` used in status messages. -/
def EMO_streak : String := "🔥"

/-- Emoji `EMO["repair"]` used in status messages. -/
def EMO_repair : String := "🧩"

/-- Emoji `EMO["pause"]` used in status messages. -/
def EMO_pause : String := "⏸️"

/-- Emoji `EMO["resume"]` used in status messages. -/
def EMO_resume : String := "⏯️"

/-- Emoji `EMO["stop"]` used in status messages. -/
def EMO_stop : String := "⏹️"

/-- Embeds the `Goals` dataclass. -/
structure Goals where
  target_xp : Option Int := none
  target_gems : Option Int := none
  target_streak_inc : Option Int := none
deriving DecidableEq, Repr

/-- Embeds the `Profile` dataclass merged with the per-profile fields of
its `DuoClient` (`sub`, `user`): the worker loop and the dispatcher read
and write both through `p` / `p.client`.  The `baseline` dict
`{"xp": _, "gems": _, "streak": _}` is flattened into three fields whose
pre-init value is the dict-lookup default `0`. -/
structure ProfileState where
  id : Int
  label : String := ""
  jwt : String := ""
  mode : String
  delay : ℚ := DEFAULT_DELAY
  sub : Option String := none
  user : Option UserInfo := none
  running : Bool := false
  paused : Bool := false
  goals : Goals := {}
  baseline_xp : Int := 0
  baseline_gems : Int := 0
  baseline_streak : Int := 0
  last_msg : String := ""
deriving DecidableEq, Repr

/-- Applies a pure update to `p.client.user` when it is present (the
mutation sites in the loop are only reached when the user exists). -/
def map_user (p : ProfileState) (f : UserInfo → UserInfo) : ProfileState :=
  { p with user := p.user.map f }

/-- The `done` flag of `AutoFarmCLI._check_targets`: some configured
threshold is met by `current - baseline` in its dimension. -/
def goal_done (p : ProfileState) (u : UserInfo) : Bool :=
  (match p.goals.target_xp with
   | some t => decide (u.totalXp - p.baseline_xp ≥ t)
   | none => false) ||
  (match p.goals.target_gems with
   | some t => decide (u.gems - p.baseline_gems ≥ t)
   | none => false) ||
  (match p.goals.target_streak_inc with
   | some t => decide (u.streak - p.baseline_streak ≥ t)
   | none => false)

/-- Embeds `AutoFarmCLI._check_targets`: if any configured threshold is
met by `current - baseline` the profile stops with the
"Targets reached" message; without a user snapshot nothing happens. -/
def check_targets (p : ProfileState) : ProfileState :=
  match p.user with
  | none => p
  | some u =>
      if goal_done p u then
        { p with running := false, last_msg := EMO_ok ++ " Targets reached" }
      else p

/-- Predicate following the spec's words for the goal condition: some
threshold of the Goal Set is set and `current - baseline` meets or
exceeds it in that dimension. -/
def spec_goal_met (p : ProfileState) (u : UserInfo) : Prop :=
  (∃ t, p.goals.target_xp = some t ∧ u.totalXp - p.baseline_xp ≥ t) ∨
  (∃ t, p.goals.target_gems = some t ∧ u.gems - p.baseline_gems ≥ t) ∨
  (∃ t, p.goals.target_streak_inc = some t ∧ u.streak - p.baseline_streak ≥ t)

/-- Observable steps of one worker-loop iteration: the remote action of
each strategy phase, the inter-phase / inter-iteration jittered sleeps,
and the short fixed poll sleep while paused. -/
inductive Event where
  | xpAction
  | gemAction
  | streakAction
  | repairAction
  | sleep
  | pollSleep
deriving DecidableEq, Repr

/-- Remote-outcome oracle for one worker-loop iteration: one request
stream per endpoint the iteration may hit (`repairCreate i` /
`repairUpdate i` serve backfill attempt `i` of `streak_repair`), plus
the value of `int(time.time())` at the iteration. -/
structure IterOracle where
  xpStream : Nat → HttpTry Int
  gemStream : Nat → HttpTry Unit
  createStream : Nat → HttpTry (Option (Option String))
  updateStream : Nat → HttpTry String
  repairCreate : Nat → Nat → HttpTry (Option (Option String))
  repairUpdate : Nat → Nat → HttpTry String
  now : Int

/-- Embeds the mode-dispatch body of one `_profile_loop` iteration (the
`if p.mode == ...` chain), before `_check_targets` and the trailing
sleep.  Returns the updated profile, the events in order, and whether an
exception escaped (to be caught by the loop's outer `except`).  In
`combo`, an `xp` or `gem` phase failure leaves `last_msg` untouched and
later phases still run.  The `streak_repair` branch passes the client's
delay, which `DuoClient.__init__` sets to
`max(GLOBAL_MIN_DELAY, float(delay))` from the profile's delay. -/
def mode_step (p : ProfileState) (o : IterOracle) : ProfileState × List Event × Bool :=
  if p.mode == "gem" then
    match farm_gem_once p.sub p.user o.gemStream with
    | .error _ => (p, [Event.gemAction], true)
    | .ok ok =>
        if ok then
          ({ map_user p (fun u => { u with gems := u.gems + 30 }) with
             last_msg := EMO_gem ++ " +30 gems" }, [Event.gemAction], false)
        else ({ p with last_msg := EMO_err ++ " gem fail" }, [Event.gemAction], false)
  else if p.mode == "xp" then
    match farm_xp_once p.user o.xpStream with
    | .error _ => (p, [Event.xpAction], true)
    | .ok gained =>
        if gained > 0 then
          ({ map_user p (fun u => { u with totalXp := u.totalXp + gained }) with
             last_msg := EMO_xp ++ " +" ++ toString gained ++ " XP" }, [Event.xpAction], false)
        else ({ p with last_msg := EMO_err ++ " xp fail" }, [Event.xpAction], false)
  else if p.mode == "streak_farm" then
    match p.user with
    | none => (p, [], true)
    | some u =>
        let ts := (o.now - 86400) - max 0 (u.streak - p.baseline_streak) * 86400
        match streak_bump_once (some u) o.createStream o.updateStream ts with
        | .error _ => (p, [Event.streakAction], true)
        | .ok (ok, why) =>
            if ok then
              ({ map_user p (fun v => { v with streak := v.streak + 1 }) with
                 last_msg := EMO_streak ++ " +1 streak" }, [Event.streakAction], false)
            else ({ p with last_msg := EMO_err ++ " streak: " ++ why },
                  [Event.streakAction], false)
  else if p.mode == "streak_repair" then
    match streak_repair p.user (max GLOBAL_MIN_DELAY p.delay) o.now
        o.repairCreate o.repairUpdate with
    | .error _ => (p, [Event.repairAction], true)
    | .ok res =>
        let p1 := map_user p (fun u => { u with streak := res.finalStreak })
        let p2 :=
          if res.worked > 0 then
            { p1 with last_msg := EMO_repair ++ " repaired +" ++ toString res.worked }
          else { p1 with last_msg := EMO_err ++ " repair: " ++ res.reason }
        ({ p2 with running := false }, [Event.repairAction], false)
  else if p.mode == "combo" then
    match farm_xp_once p.user o.xpStream with
    | .error _ => (p, [Event.xpAction], true)
    | .ok gained =>
        let p1 :=
          if gained > 0 then
            { map_user p (fun u => { u with totalXp := u.totalXp + gained }) with
              last_msg := EMO_xp ++ " +" ++ toString gained ++ " XP" }
          else p
        match farm_gem_once p1.sub p1.user o.gemStream with
        | .error _ => (p1, [Event.xpAction, Event.sleep, Event.gemAction], true)
        | .ok ok =>
            let p2 :=
              if ok then
                { map_user p1 (fun u => { u with gems := u.gems + 30 }) with
                  last_msg := EMO_gem ++ " +30 gems" }
              else p1
            match p2.user with
            | none => (p2, [Event.xpAction, Event.sleep, Event.gemAction], true)
            | some u =>
                let ts := (o.now - 86400) - max 0 (u.streak - p2.baseline_streak) * 86400
                match streak_bump_once (some u) o.createStream o.updateStream ts with
                | .error _ =>
                    (p2, [Event.xpAction, Event.sleep, Event.gemAction, Event.streakAction],
                     true)
                | .ok (ok2, why) =>
                    let p3 :=
                      if ok2 then
                        { map_user p2 (fun v => { v with streak := v.streak + 1 }) with
                          last_msg := EMO_streak ++ " +1 streak" }
                      else { p2 with last_msg := EMO_err ++ " streak: " ++ why }
                    (p3, [Event.xpAction, Event.sleep, Event.gemAction, Event.streakAction],
                     false)
  else (p, [], false)

/-- Embeds one pass of the `while p.running` body of `_profile_loop`:
while paused only a `0.2 s` poll sleep happens (`continue` skips the
goal check and the delay), otherwise the mode dispatch runs, then
`_check_targets`, then one jittered inter-iteration sleep. -/
def profile_iterate (p : ProfileState) (o : IterOracle) : ProfileState × List Event × Bool :=
  if p.paused then (p, [Event.pollSleep], false)
  else
    let r := mode_step p o
    if r.2.2 then r
    else (check_targets r.1, r.2.1 ++ [Event.sleep], false)

/-- Embeds the `while p.running` loop of `_profile_loop`, truncated at
`fuel` iterations: iteration `k` draws `o k`; an escaped exception is
caught by the loop's outer `except`, which records a diagnostic message
(its text, `f"exception: {e}"`, is abstracted) and stops the profile. -/
def profile_run (o : Nat → IterOracle) : Nat → Nat → ProfileState → ProfileState × List Event
  | 0, _, p => (p, [])
  | fuel + 1, k, p =>
      if p.running then
        let r := profile_iterate p (o k)
        if r.2.2 then ({ r.1 with running := false, last_msg := EMO_err ++ " exception" }, r.2.1)
        else
          let rest := profile_run o fuel (k + 1) r.1
          (rest.1, r.2.1 ++ rest.2)
      else (p, [])

/-- Embeds the initialization prefix of `_profile_loop`: the baseline
fetch.  On a missing user the profile stops with the `JWT/Info fail`
diagnostic and the loop body is never reached; a raised fetch is caught
by the outer `except`.  The second component counts HTTP attempts. -/
def profile_init (p : ProfileState) (stream : Nat → HttpTry UserInfo) :
    ProfileState × Nat :=
  match get_user_info p.sub stream with
  | (.error _, n) => ({ p with running := false, last_msg := EMO_err ++ " exception" }, n)
  | (.ok none, n) => ({ p with running := false, last_msg := EMO_err ++ " JWT/Info fail" }, n)
  | (.ok (some u), n) =>
      ({ p with user := some u,
                baseline_xp := u.totalXp, baseline_gems := u.gems,
                baseline_streak := u.streak,
                running := true,
                last_msg := EMO_ok ++ " Ready as " ++ u.username }, n)

/-- Embeds the `finally` block of `_profile_loop`: one best-effort
`get_user_info` whose failure or raise is swallowed; a 200 refreshes the
snapshot.  The second component counts HTTP attempts. -/
def final_refresh (p : ProfileState) (stream : Nat → HttpTry UserInfo) :
    ProfileState × Nat :=
  match get_user_info p.sub stream with
  | (.ok (some u), n) => ({ p with user := some u }, n)
  | (.error _, n) => (p, n)
  | (.ok none, n) => (p, n)

/-- Embeds the whole of `_profile_loop` for one profile: init, the
(fuel-truncated) iteration loop, and the final best-effort refresh.
Returns the final profile, the strategy events, and the total count of
HTTP attempts issued by the two snapshot fetches. -/
def profile_worker (p : ProfileState) (initStream finalStream : Nat → HttpTry UserInfo)
    (o : Nat → IterOracle) (fuel : Nat) : ProfileState × List Event × Nat :=
  let r1 := profile_init p initStream
  if r1.1.running then
    let r2 := profile_run o fuel 0 r1.1
    let r3 := final_refresh r2.1 finalStream
    (r3.1, r2.2, r1.2 + r3.2)
  else
    let r3 := final_refresh r1.1 finalStream
    (r3.1, [], r1.2 + r3.2)

/-- Outcome of one `AutoFarmCLI._handle_cmd` call: a normal return with
the (possibly updated) profile list, the `SystemExit` raised by `quit`,
the interactive `add` path (its stdin prompts are outside this model),
or an uncaught exception escaping the handler — `raised` keeps the
profile list as already mutated when the exception fired. -/
inductive CmdOutcome where
  | ok (ps : List ProfileState)
  | exit (ps : List ProfileState)
  | addRequested (ps : List ProfileState)
  | raised (ps : List ProfileState)
deriving DecidableEq, Repr

/-- Profile list carried by a `CmdOutcome`. -/
def CmdOutcome.profiles : CmdOutcome → List ProfileState
  | .ok ps => ps
  | .exit ps => ps
  | .addRequested ps => ps
  | .raised ps => ps

/-- Whether a `_handle_cmd` call let an exception escape. -/
def CmdOutcome.isRaised : CmdOutcome → Bool
  | .raised _ => true
  | _ => false

/-- Embeds `next((x for x in self.profiles if x.id == pid), None)`. -/
def find_profile (ps : List ProfileState) (pid : Int) : Option ProfileState :=
  ps.find? (fun q => q.id == pid)

/-- In-place mutation of the first profile with the given id (the object
found by `next(...)` is mutated, so only the first match changes). -/
def set_profile : List ProfileState → Int → (ProfileState → ProfileState) → List ProfileState
  | [], _, _ => []
  | q :: rest, pid, f =>
      if q.id == pid then f q :: rest else q :: set_profile rest pid f

/-- Embeds `kv.split("=", 1)[1]`: everything after the first `=` (only
used on tokens that contain one, guarded by `startswith`). -/
def after_first_eq (s : String) : String :=
  String.mk (after_eq_chars s.toList)

/-- Embeds the `for kv in parts[2:]` loop of the `targets` branch:
matching key prefixes update the goal fields in order; `int(...)` on a
malformed value raises, keeping the updates already applied (second
component `true` marks the raise). -/
def apply_targets : List String → Goals → Goals × Bool
  | [], g => (g, false)
  | kv :: rest, g =>
      if py_startswith kv "xp=" then
        match pyInt (after_first_eq kv) with
        | none => (g, true)
        | some v => apply_targets rest { g with target_xp := some v }
      else if py_startswith kv "gems=" then
        match pyInt (after_first_eq kv) with
        | none => (g, true)
        | some v => apply_targets rest { g with target_gems := some v }
      else if py_startswith kv "streak+=" then
        match pyInt (after_first_eq kv) with
        | none => (g, true)
        | some v => apply_targets rest { g with target_streak_inc := some v }
      else apply_targets rest g

/-- Embeds `AutoFarmCLI._handle_cmd(cmd)` over the profile list.  The
split is Python's `cmd.split()` (runs of blanks dropped; commands arrive
space-separated).  Mirrors the source exactly: `pause`/`resume`/`stop`
wrap `int(parts[1])` in try/except and silently return on failure, while
`mode` and `targets` call `int(...)` unguarded, so a non-numeric id or
threshold value raises out of the handler; unknown profile ids and
unknown leading words fall through silently; the `api` branch only has
out-of-model side effects. -/
def handle_cmd (cmd : String) (ps : List ProfileState) : CmdOutcome :=
  if cmd == "" then .ok ps
  else
    match py_split cmd with
    | [] => .raised ps
    | p0 :: rest =>
        if p0 == "quit" then .exit (ps.map (fun q => { q with running := false }))
        else if p0 == "add" then .addRequested ps
        else if (p0 == "pause" || p0 == "resume" || p0 == "stop")
            && decide (rest.length ≥ 1) then
          match rest.head? with
          | none => .ok ps
          | some a1 =>
              match pyInt a1 with
              | none => .ok ps
              | some pid =>
                  match find_profile ps pid with
                  | none => .ok ps
                  | some _ =>
                      if p0 == "pause" then
                        .ok (set_profile ps pid
                          (fun q => { q with paused := true,
                                             last_msg := EMO_pause ++ " paused" }))
                      else if p0 == "resume" then
                        .ok (set_profile ps pid
                          (fun q => { q with paused := false,
                                             last_msg := EMO_resume ++ " resumed" }))
                      else
                        .ok (set_profile ps pid
                          (fun q => { q with running := false,
                                             last_msg := EMO_stop ++ " stopped" }))
        else if p0 == "mode" && decide (rest.length ≥ 2) then
          match rest with
          | a1 :: a2 :: _ =>
              match pyInt a1 with
              | none => .raised ps
              | some pid =>
                  match find_profile ps pid with
                  | none => .ok ps
                  | some _ =>
                      .ok (set_profile ps pid
                        (fun q => { q with mode := a2, last_msg := "mode → " ++ a2 }))
          | _ => .ok ps
        else if p0 == "targets" && decide (rest.length ≥ 1) then
          match rest with
          | a1 :: kvs =>
              match pyInt a1 with
              | none => .raised ps
              | some pid =>
                  match find_profile ps pid with
                  | none => .ok ps
                  | some q =>
                      if (apply_targets kvs q.goals).2 then
                        .raised (set_profile ps pid
                          (fun r => { r with goals := (apply_targets kvs q.goals).1 }))
                      else
                        .ok (set_profile ps pid
                          (fun r => { r with goals := (apply_targets kvs q.goals).1,
                                             last_msg := "targets set" }))
          | [] => .ok ps
        else .ok ps

/-! ### Helper lemmas about the retry loop -/

theorem requestGo_attempts_le {α : Type} (stream : Nat → HttpTry α) :
    ∀ fuel idx, (requestGo stream idx fuel).attempts ≤ idx + fuel + 1 := by
  intro fuel
  induction fuel with
  | zero =>
      intro idx
      unfold requestGo
      cases h : stream idx <;> simp
  | succ n ih =>
      intro idx
      unfold requestGo
      cases h : stream idx with
      | resp s ra p =>
          simp only [h]
          by_cases hr : isRetryableStatus s = true
          · rw [if_pos hr]
            have := ih (idx + 1)
            dsimp only
            omega
          · rw [if_neg hr]
            dsimp only
            omega
      | transportError =>
          simp only [h]
          have := ih (idx + 1)
          omega

theorem requestGo_retried_only {α : Type} (stream : Nat → HttpTry α) :
    ∀ fuel idx i, idx ≤ i → i + 1 < (requestGo stream idx fuel).attempts →
      (∃ s ra p, stream i = HttpTry.resp s ra p ∧ isRetryableStatus s = true) ∨
      stream i = HttpTry.transportError := by
  intro fuel
  induction fuel with
  | zero =>
      intro idx i hle hlt
      exfalso
      unfold requestGo at hlt
      cases h : stream idx <;> rw [h] at hlt <;> simp at hlt <;> omega
  | succ n ih =>
      intro idx i hle hlt
      unfold requestGo at hlt
      cases h : stream idx with
      | resp s ra p =>
          rw [h] at hlt
          by_cases hr : isRetryableStatus s = true
          · rcases Nat.lt_or_ge idx i with hlt2 | hge
            · exact ih (idx + 1) i hlt2 (by simpa [hr] using hlt)
            · have hi : i = idx := le_antisymm hge hle
              exact Or.inl ⟨s, ra, p, hi ▸ h, hr⟩
          · simp [hr] at hlt
            omega
      | transportError =>
          rw [h] at hlt
          rcases Nat.lt_or_ge idx i with hlt2 | hge
          · exact ih (idx + 1) i hlt2 (by simpa using hlt)
          · have hi : i = idx := le_antisymm hge hle
            exact Or.inr (hi ▸ h)

/-- C2: the resilient client retries only on transport failure or a
status in {429, 500, 502, 503, 504}; at most `MAX_RETRIES` retries
beyond the first attempt; a run of retryable statuses exhausting the
budget returns the fifth (last) response as-is; exhausting the budget on
transport failures re-raises; any other status returns immediately with
a single attempt and no backoff sleep. -/
theorem claim_C2_resilient_retry {α : Type} (stream : Nat → HttpTry α) :
    ((duo_request stream).attempts ≤ MAX_RETRIES + 1)
    ∧ (∀ i, i + 1 < (duo_request stream).attempts →
        (∃ s ra p, stream i = HttpTry.resp s ra p ∧ isRetryableStatus s = true) ∨
        stream i = HttpTry.transportError)
    ∧ (∀ s ra p, stream 0 = HttpTry.resp s ra p → isRetryableStatus s = false →
        duo_request stream = ⟨.ok (s, p), 1, []⟩)
    ∧ ((∀ i, ∃ s ra p, stream i = HttpTry.resp s ra p ∧ isRetryableStatus s = true) →
        (∃ s ra p, stream MAX_RETRIES = HttpTry.resp s ra p ∧
          (duo_request stream).result = .ok (s, p)) ∧
        (duo_request stream).attempts = MAX_RETRIES + 1)
    ∧ ((∀ i, stream i = HttpTry.transportError) →
        (duo_request stream).result = .error () ∧
        (duo_request stream).attempts = MAX_RETRIES + 1) := by
  refine ⟨requestGo_attempts_le stream MAX_RETRIES 0, ?_, ?_, ?_, ?_⟩
  · exact fun i => requestGo_retried_only stream MAX_RETRIES 0 i (Nat.zero_le i)
  · intro s ra p h0 hnr
    unfold duo_request MAX_RETRIES requestGo
    rw [h0]
    simp [hnr]
  · intro hall
    obtain ⟨s0, ra0, p0, h0, r0⟩ := hall 0
    obtain ⟨s1, ra1, p1, h1, r1⟩ := hall 1
    obtain ⟨s2, ra2, p2, h2, r2⟩ := hall 2
    obtain ⟨s3, ra3, p3, h3, r3⟩ := hall 3
    obtain ⟨s4, ra4, p4, h4, r4⟩ := hall 4
    refine ⟨⟨s4, ra4, p4, h4, ?_⟩, ?_⟩ <;>
      simp [duo_request, MAX_RETRIES, requestGo, h0, r0, h1, r1, h2, r2, h3, r3, h4, r4]
  · intro hall
    constructor <;> simp [duo_request, MAX_RETRIES, requestGo, hall]

/-- A concrete instance of the C2 theorem: a 401 (non-retryable) first
response is returned immediately with one attempt and no sleeps. -/
theorem claim_C2_witness :
    duo_request (fun _ => HttpTry.resp 401 none (7 : Int)) =
      ⟨.ok (401, 7), 1, []⟩ :=
  (claim_C2_resilient_retry (fun _ => HttpTry.resp 401 none (7 : Int))).2.2.1
    401 none 7 rfl (by decide)

/-! ### Helper lemma locating each retry's wait base -/

theorem requestGo_wait_formula {α : Type} (stream : Nat → HttpTry α) :
    ∀ fuel idx t w, fuel ≤ MAX_RETRIES →
      (requestGo stream idx fuel).waitBases[t]? = some w →
      w = (match stream (idx + t) with
           | HttpTry.resp _ ra _ => statusWait ra (MAX_RETRIES - fuel + 1 + t)
           | HttpTry.transportError => transportWait (MAX_RETRIES - fuel + 1 + t)) := by
  intro fuel
  induction fuel with
  | zero =>
      intro idx t w _ hw
      exfalso
      unfold requestGo at hw
      cases h : stream idx <;> rw [h] at hw <;> simp at hw
  | succ n ih =>
      intro idx t w hle hw
      have harith0 : MAX_RETRIES - (n + 1) + 1 + 0 = MAX_RETRIES - n := by
        simp only [MAX_RETRIES] at hle ⊢
        omega
      unfold requestGo at hw
      cases h : stream idx with
      | resp s ra p =>
          simp only [h] at hw
          by_cases hr : isRetryableStatus s = true
          · rw [if_pos hr] at hw
            cases t with
            | zero =>
                simp only [List.getElem?_cons_zero, Option.some.injEq] at hw
                simp only [Nat.add_zero, h, ← hw, harith0]
            | succ t0 =>
                have hrec := ih (idx + 1) t0 w (by omega) (by simpa using hw)
                rw [hrec]
                have harith : idx + 1 + t0 = idx + (t0 + 1) := by omega
                have harith2 : MAX_RETRIES - (n + 1) + 1 + (t0 + 1) = MAX_RETRIES - n + 1 + t0 := by
                  simp only [MAX_RETRIES] at hle ⊢
                  omega
                rw [harith, harith2]
          · rw [if_neg hr] at hw
            simp at hw
      | transportError =>
          simp only [h] at hw
          cases t with
          | zero =>
              simp only [List.getElem?_cons_zero, Option.some.injEq] at hw
              simp only [Nat.add_zero, h, ← hw, harith0]
          | succ t0 =>
              have hrec := ih (idx + 1) t0 w (by omega) (by simpa using hw)
              rw [hrec]
              have harith : idx + 1 + t0 = idx + (t0 + 1) := by omega
              have harith2 : MAX_RETRIES - (n + 1) + 1 + (t0 + 1) = MAX_RETRIES - n + 1 + t0 := by
                simp only [MAX_RETRIES] at hle ⊢
                omega
              rw [harith, harith2]

/-- C7 counterexample: the jitter is not symmetric.  With backoff base 5
the sleep `5 + 0.12` is attainable but its mirror image `5 - 0.12` is
not, because the jitter is drawn from `[-0.08, 0.12]`. -/
theorem claim_C7_cex :
    possible_sleep 5 (5 + 0.12) ∧ ¬ possible_sleep 5 (5 - 0.12) := by
  constructor
  · refine ⟨0.12, by norm_num [jitter_lo], by norm_num [jitter_hi], ?_⟩
    norm_num [sleep_with_jitter, GLOBAL_MIN_DELAY]
  · rintro ⟨j, h1, h2, h3⟩
    rw [sleep_with_jitter] at h3
    rw [max_eq_right (by norm_num [GLOBAL_MIN_DELAY, jitter_lo] at h1 ⊢; linarith)] at h3
    norm_num [jitter_lo] at h1
    norm_num at h3
    linarith

/-- C7 amended: the wait base of retry attempt `t` (1-based) is
`min(BACKOFF_CAP, 0.7 * 2^(t-1))` for a retryable status (`0.5` for a
transport error), except that an all-digits `Retry-After` header value
takes precedence; the slept duration adds random jitter from the
asymmetric interval `[-0.08, 0.12]` and is clamped below by
`GLOBAL_MIN_DELAY`. -/
theorem claim_C7_amended :
    (∀ t : Nat, statusWait none t = min BACKOFF_CAP (0.7 * 2 ^ (t - 1)))
    ∧ (∀ ra t, py_isdigit ra = false →
        statusWait (some ra) t = min BACKOFF_CAP (0.7 * 2 ^ (t - 1)))
    ∧ (∀ ra t, py_isdigit ra = true →
        statusWait (some ra) t = ((digits_val ra.toList : Nat) : ℚ))
    ∧ (∀ t, transportWait t = min BACKOFF_CAP (0.5 * 2 ^ (t - 1)))
    ∧ (∀ base j, GLOBAL_MIN_DELAY ≤ sleep_with_jitter base j)
    ∧ (∀ {α : Type} (stream : Nat → HttpTry α) (t : Nat) (w : ℚ),
        (duo_request stream).waitBases[t]? = some w →
        w = (match stream t with
             | HttpTry.resp _ ra _ => statusWait ra (t + 1)
             | HttpTry.transportError => transportWait (t + 1))) := by
  refine ⟨fun t => rfl, ?_, ?_, fun t => rfl, ?_, ?_⟩
  · intro ra t h
    simp [statusWait, h]
  · intro ra t h
    simp [statusWait, h]
  · intro base j
    exact le_max_left _ _
  · intro α stream t w hw
    have := requestGo_wait_formula stream MAX_RETRIES 0 t w le_rfl hw
    rw [this]
    have h1 : MAX_RETRIES - MAX_RETRIES + 1 + t = t + 1 := by omega
    have h2 : 0 + t = t := by omega
    rw [h1, h2]

/-- A concrete instance of the C7 theorem: an all-digits `Retry-After`
value `"3"` overrides the computed backoff, and it is exactly the second
wait base of an all-429 run. -/
theorem claim_C7_witness :
    statusWait (some "3") 2 = ((digits_val "3".toList : Nat) : ℚ)
    ∧ statusWait (some "3") 2
        = (match (fun _ => HttpTry.resp 429 (some "3") ()) 1 with
           | HttpTry.resp _ ra _ => statusWait ra (1 + 1)
           | HttpTry.transportError => transportWait (1 + 1)) :=
  ⟨claim_C7_amended.2.2.1 "3" 2 rfl,
   claim_C7_amended.2.2.2.2.2 (fun _ => HttpTry.resp 429 (some "3") ()) 1
     (statusWait (some "3") 2) rfl⟩

/-! ### Helper lemmas about the worker loop and dispatcher -/

theorem profile_run_stopped (o : Nat → IterOracle) (fuel k : Nat) (p : ProfileState)
    (h : p.running = false) : profile_run o fuel k p = (p, []) := by
  cases fuel with
  | zero => rfl
  | succ n =>
      unfold profile_run
      rw [if_neg (by simp [h])]

theorem check_targets_stopped (p : ProfileState) (h : p.running = false) :
    (check_targets p).running = false := by
  unfold check_targets
  split
  · exact h
  next u hu =>
    by_cases hg : goal_done p u = true
    · rw [if_pos hg]
    · rw [if_neg hg]
      exact h

theorem set_profile_no_resurrect (f : ProfileState → ProfileState)
    (hf : ∀ r, (f r).running = true → r.running = true) :
    ∀ (ps : List ProfileState) (pid : Int) (i : Nat) (q : ProfileState),
      (set_profile ps pid f)[i]? = some q → q.running = true →
      ∃ p0, ps[i]? = some p0 ∧ p0.running = true := by
  intro ps
  induction ps with
  | nil => intro pid i q h hr; simp [set_profile] at h
  | cons a rest ih =>
      intro pid i q h hr
      unfold set_profile at h
      by_cases ha : (a.id == pid) = true
      · rw [if_pos ha] at h
        cases i with
        | zero =>
            simp only [List.getElem?_cons_zero, Option.some.injEq] at h
            exact ⟨a, by simp, hf a (h ▸ hr)⟩
        | succ n =>
            simp only [List.getElem?_cons_succ] at h
            exact ⟨q, by simpa using h, hr⟩
      · rw [if_neg ha] at h
        cases i with
        | zero =>
            simp only [List.getElem?_cons_zero, Option.some.injEq] at h
            exact ⟨a, by simp, h ▸ hr⟩
        | succ n =>
            simp only [List.getElem?_cons_succ] at h
            obtain ⟨p0, hp0, hrun⟩ := ih pid n q h hr
            exact ⟨p0, by simpa using hp0, hrun⟩

theorem map_stop_not_running (ps : List ProfileState) (i : Nat) (q : ProfileState)
    (h : (ps.map (fun p => { p with running := false }))[i]? = some q) :
    q.running = false := by
  rw [List.getElem?_map] at h
  cases hp : ps[i]? with
  | none => rw [hp] at h; simp at h
  | some p0 =>
      rw [hp] at h
      simp at h
      rw [← h]

theorem handle_cmd_no_resurrect (cmd : String) (ps : List ProfileState) (i : Nat)
    (q : ProfileState) (h : ((handle_cmd cmd ps).profiles)[i]? = some q)
    (hr : q.running = true) : ∃ p0, ps[i]? = some p0 ∧ p0.running = true := by
  unfold handle_cmd at h
  repeat' split at h
  all_goals (try simp only [CmdOutcome.profiles] at h)
  all_goals first
    | exact ⟨q, h, hr⟩
    | (have hstop := map_stop_not_running _ _ _ h
       rw [hstop] at hr
       exact Bool.noConfusion hr)
    | (refine set_profile_no_resurrect _ ?_ _ _ _ _ h hr
       intro r hrr
       simp at hrr
       try exact hrr)

/-- C1: whenever the post-iteration goal check `_check_targets` sees a
met threshold (current minus baseline at or above the target in any of
the three dimensions), the profile's running flag is cleared and the
"Targets reached" message recorded; a stopped profile's worker loop
performs no further iteration (no strategy work, no events); and no
dispatcher command can ever turn a stopped profile's running flag back
on, so the profile never returns to running. -/
theorem claim_C1_goal_stop :
    (∀ p u, p.user = some u → spec_goal_met p u →
      (check_targets p).running = false ∧
      (check_targets p).last_msg = EMO_ok ++ " Targets reached")
    ∧ (∀ o fuel k p, p.running = false → profile_run o fuel k p = (p, []))
    ∧ (∀ (cmd : String) (ps : List ProfileState) (i : Nat) (q : ProfileState),
        ((handle_cmd cmd ps).profiles)[i]? = some q →
        q.running = true → ∃ p0 : ProfileState, ps[i]? = some p0 ∧ p0.running = true) := by
  refine ⟨?_, ?_, ?_⟩
  · intro p u hu hg
    have hd : goal_done p u = true := by
      rcases hg with ⟨t, ht, hge⟩ | ⟨t, ht, hge⟩ | ⟨t, ht, hge⟩ <;>
        simp [goal_done, ht, hge]
    constructor <;> simp [check_targets, hu, hd]
  · exact fun o fuel k p h => profile_run_stopped o fuel k p h
  · exact fun cmd ps i q h hr => handle_cmd_no_resurrect cmd ps i q h hr

/-- A fixed benign per-iteration oracle used by concrete witnesses. -/
def demo_oracle : IterOracle :=
  { xpStream := fun _ => .resp 200 none 0
    gemStream := fun _ => .resp 200 none ()
    createStream := fun _ => .resp 200 none (some (some "s"))
    updateStream := fun _ => .resp 200 none "ok"
    repairCreate := fun _ _ => .resp 200 none (some (some "s"))
    repairUpdate := fun _ _ => .resp 200 none "ok"
    now := 1700000000 }

/-- A running gem-mode profile whose gem goal (30) is already met by its
snapshot (60 gems over baseline 0). -/
def C1_profile : ProfileState :=
  { id := 1, mode := "gem", running := true,
    user := some { gems := 60 }, goals := { target_gems := some 30 } }

/-- A concrete instance of the C1 theorem: the goal check stops
`C1_profile`, a stopped copy runs zero iterations, and the only
running profile surviving a `resume` command was already running. -/
theorem claim_C1_witness :
    ((check_targets C1_profile).running = false ∧
     (check_targets C1_profile).last_msg = EMO_ok ++ " Targets reached")
    ∧ profile_run (fun _ => demo_oracle) 3 0 { C1_profile with running := false }
        = ({ C1_profile with running := false }, [])
    ∧ (∃ p0, ([C1_profile] : List ProfileState)[0]? = some p0 ∧ p0.running = true) :=
  ⟨claim_C1_goal_stop.1 C1_profile { gems := 60 } rfl
     (Or.inr (Or.inl ⟨30, rfl, by norm_num [C1_profile]⟩)),
   claim_C1_goal_stop.2.1 (fun _ => demo_oracle) 3 0 { C1_profile with running := false } rfl,
   claim_C1_goal_stop.2.2 "resume 1" [C1_profile] 0
     { C1_profile with paused := false, last_msg := EMO_resume ++ " resumed" } rfl rfl⟩

/-! ### Helper lemmas about streak repair -/

/-- Outcome of backfill attempt `i` of a `streak_repair` run (the bump
result does not depend on the backdated timestamp, which only goes into
the request payload handled by the oracle). -/
def bump_result (u : UserInfo) (cr : Nat → Nat → HttpTry (Option (Option String)))
    (up : Nat → Nat → HttpTry String) (i : Nat) : Except Unit (Bool × String) :=
  streak_bump_once (some u) (cr i) (up i) 0

/-- Whether backfill attempt `i` of a `streak_repair` run succeeds. -/
def bump_ok (u : UserInfo) (cr : Nat → Nat → HttpTry (Option (Option String)))
    (up : Nat → Nat → HttpTry String) (i : Nat) : Bool :=
  match bump_result u cr up i with
  | .ok (b, _) => b
  | .error _ => false

/-- Successful-attempt count over the window of `r` attempts starting at
attempt index `i`. -/
def count_ok (u : UserInfo) (cr : Nat → Nat → HttpTry (Option (Option String)))
    (up : Nat → Nat → HttpTry String) : Nat → Nat → Nat
  | _, 0 => 0
  | i, r + 1 => (if bump_ok u cr up i then 1 else 0) + count_ok u cr up (i + 1) r

/-- The backdated timestamps of the window of `r` attempts starting at
attempt index `i`. -/
def ts_list (now : Int) : Nat → Nat → List Int
  | _, 0 => []
  | i, r + 1 => (now - ((i : Int) + 1) * 86400) :: ts_list now (i + 1) r

theorem repair_loop_spec (u : UserInfo)
    (cr : Nat → Nat → HttpTry (Option (Option String)))
    (up : Nat → Nat → HttpTry String) (delay : ℚ) (now : Int)
    (hnr : ∀ i, bump_result u cr up i ≠ .error ()) :
    ∀ r i worked streak,
      repair_loop u cr up delay now i r worked streak =
        .ok (worked + count_ok u cr up i r,
             streak + (count_ok u cr up i r : Int),
             ts_list now i r,
             List.replicate r delay) := by
  intro r
  induction r with
  | zero => intro i w s; simp [repair_loop, count_ok, ts_list]
  | succ n ih =>
      intro i w s
      unfold repair_loop
      dsimp only
      have hts : streak_bump_once (some u) (cr i) (up i) (now - ((i : Int) + 1) * 86400)
          = bump_result u cr up i := rfl
      rw [hts]
      cases hb : bump_result u cr up i with
      | error e => exact absurd hb (by cases e; exact hnr i)
      | ok bw =>
          obtain ⟨b, w'⟩ := bw
          dsimp only
          rw [ih (i + 1)]
          have hcount : count_ok u cr up i (n + 1)
              = (if bump_ok u cr up i then 1 else 0) + count_ok u cr up (i + 1) n := rfl
          have htl : ts_list now i (n + 1)
              = (now - ((i : Int) + 1) * 86400) :: ts_list now (i + 1) n := rfl
          rw [hcount, htl, show bump_ok u cr up i = b by simp [bump_ok, hb]]
          cases b <;> (simp [List.replicate_succ]; try omega)

theorem ts_list_eq_map (now : Int) :
    ∀ r i, ts_list now i r
      = (List.range r).map (fun j : Nat => now - ((i : Int) + (j : Int) + 1) * 86400) := by
  intro r
  induction r with
  | zero => intro i; rfl
  | succ n ih =>
      intro i
      have hhead : ts_list now i (n + 1)
          = (now - ((i : Int) + 1) * 86400) :: ts_list now (i + 1) n := rfl
      rw [hhead, ih (i + 1), List.range_succ_eq_map, List.map_cons, List.map_map]
      have h1 : now - ((i : Int) + 1) * 86400
          = now - ((i : Int) + (((0 : Nat) : Int)) + 1) * 86400 := by
        push_cast
        ring
      have h2 : (List.range n).map
            (fun j : Nat => now - (((i + 1 : Nat) : Int) + (j : Int) + 1) * 86400)
          = (List.range n).map
            ((fun j : Nat => now - ((i : Int) + (j : Int) + 1) * 86400) ∘ Nat.succ) := by
        apply List.map_congr_left
        intro a _
        simp only [Function.comp_def, Nat.succ_eq_add_one]
        push_cast
        ring
      rw [← h1, ← h2]

theorem ts_list_mem_le (now : Int) :
    ∀ r i b, b ∈ ts_list now i r → b ≤ now - ((i : Int) + 1) * 86400 := by
  intro r
  induction r with
  | zero => intro i b hb; simp [ts_list] at hb
  | succ n ih =>
      intro i b hb
      have hhead : ts_list now i (n + 1)
          = (now - ((i : Int) + 1) * 86400) :: ts_list now (i + 1) n := rfl
      rw [hhead] at hb
      rcases List.mem_cons.mp hb with hb | hb
      · rw [hb]
      · have hle := ih (i + 1) b hb
        push_cast at hle ⊢
        omega

theorem ts_list_pairwise (now : Int) :
    ∀ r i, List.Pairwise (fun a b => b < a) (ts_list now i r) := by
  intro r
  induction r with
  | zero => intro i; exact List.Pairwise.nil
  | succ n ih =>
      intro i
      have hhead : ts_list now i (n + 1)
          = (now - ((i : Int) + 1) * 86400) :: ts_list now (i + 1) n := rfl
      rw [hhead]
      refine List.Pairwise.cons ?_ (ih (i + 1))
      intro b hb
      have hle := ts_list_mem_le now n (i + 1) b hb
      push_cast at hle ⊢
      omega

theorem count_ok_eq_countP (u : UserInfo)
    (cr : Nat → Nat → HttpTry (Option (Option String)))
    (up : Nat → Nat → HttpTry String) :
    ∀ r i, count_ok u cr up i r
      = (List.range r).countP (fun j => bump_ok u cr up (i + j)) := by
  intro r
  induction r with
  | zero => intro i; simp [count_ok]
  | succ n ih =>
      intro i
      rw [List.range_succ_eq_map]
      unfold count_ok
      rw [ih (i + 1)]
      rw [List.countP_cons, List.countP_map]
      have hc : (fun j => bump_ok u cr up (i + j)) ∘ Nat.succ
          = fun j => bump_ok u cr up (i + 1 + j) := by
        funext j
        simp [Function.comp_def, Nat.succ_eq_add_one]
        congr 1
        omega
      rw [hc]
      simp [Nat.add_comm]

/-- Reduction of `mode_step` for a profile in `streak_repair` mode. -/
theorem mode_step_repair (p : ProfileState) (o : IterOracle)
    (hm : p.mode = "streak_repair") :
    mode_step p o =
      (match streak_repair p.user (max GLOBAL_MIN_DELAY p.delay) o.now
          o.repairCreate o.repairUpdate with
       | .error _ => (p, [Event.repairAction], true)
       | .ok res =>
           let p1 := map_user p (fun u => { u with streak := res.finalStreak })
           let p2 :=
             if res.worked > 0 then
               { p1 with last_msg := EMO_repair ++ " repaired +" ++ toString res.worked }
             else { p1 with last_msg := EMO_err ++ " repair: " ++ res.reason }
           ({ p2 with running := false }, [Event.repairAction], false)) := by
  unfold mode_step
  rw [hm]
  rfl

/-- C3: with streak metadata present and no transport raise, a
`streak_repair` run performs exactly `max(0, expected - observed)`
backfill attempts, where `expected = max(1, (end - start) // 86400 + 1)`
(Python floor division), with timestamps `now - (i+1)*86400` strictly
decreasing by one day per attempt and one jittered delay (wait base
`self.delay`) per attempt; the in-memory streak counter grows by one
per successful attempt; the result pairs the successful-backfill count
with "ok" when any attempt succeeded and is `(0, "no_change")`
otherwise, `(0, "no_currentStreak")` with no attempts and no sleeps
when metadata is absent; and the worker loop stops the profile after a
single `streak_repair` iteration regardless of outcome. -/
theorem claim_C3_streak_repair :
    (∀ (u : UserInfo) (delay : ℚ) (now startTs endTs : Int)
        (cr : Nat → Nat → HttpTry (Option (Option String)))
        (up : Nat → Nat → HttpTry String),
      u.streakData = some (startTs, endTs) →
      (∀ i, bump_result u cr up i ≠ .error ()) →
      ∃ res : RepairResult,
        streak_repair (some u) delay now cr up = .ok res ∧
        (let expected : Int := max 1 ((endTs - startTs).fdiv 86400 + 1)
         let need : Nat := (max 0 (expected - u.streak)).toNat
         res.attemptTs = (List.range need).map (fun j : Nat => now - ((j : Int) + 1) * 86400) ∧
         res.attemptTs.length = need ∧
         res.sleeps = List.replicate need delay ∧
         res.sleeps.length = res.attemptTs.length ∧
         res.worked = (List.range need).countP (fun j => bump_ok u cr up j) ∧
         res.finalStreak = u.streak + res.worked ∧
         res.reason = (if res.worked = 0 then "no_change" else "ok") ∧
         List.Pairwise (fun a b => b < a) res.attemptTs))
    ∧ (∀ (u : UserInfo) (delay : ℚ) (now : Int) cr up, u.streakData = none →
        streak_repair (some u) delay now cr up
          = .ok ⟨0, "no_currentStreak", u.streak, [], []⟩)
    ∧ (∀ (p : ProfileState) (o : Nat → IterOracle) (fuel k : Nat),
        p.mode = "streak_repair" → p.running = true → p.paused = false →
        (profile_run o (fuel + 1) k p).1.running = false) := by
  refine ⟨?_, ?_, ?_⟩
  · intro u delay now startTs endTs cr up hsd hnr
    unfold streak_repair
    dsimp only
    rw [hsd]
    dsimp only
    rw [repair_loop_spec u cr up delay now hnr]
    refine ⟨_, rfl, ?_, ?_, rfl, ?_, ?_, ?_, ?_, ?_⟩
    · rw [ts_list_eq_map]
      simp
    · rw [ts_list_eq_map, List.length_map, List.length_range]
    · rw [List.length_replicate, ts_list_eq_map, List.length_map, List.length_range]
    · rw [count_ok_eq_countP]
      simp
    · simp
    · dsimp only
      rw [show (0 + count_ok u cr up 0
          ((max 0 (max 1 ((endTs - startTs).fdiv 86400 + 1) - u.streak)).toNat))
          = count_ok u cr up 0
              ((max 0 (max 1 ((endTs - startTs).fdiv 86400 + 1) - u.streak)).toNat)
        from Nat.zero_add _]
      by_cases hz : count_ok u cr up 0
          ((max 0 (max 1 ((endTs - startTs).fdiv 86400 + 1) - u.streak)).toNat) = 0 <;>
        simp [hz]
    · exact ts_list_pairwise now _ 0
  · intro u delay now cr up hsd
    unfold streak_repair
    dsimp only
    rw [hsd]
  · intro p o fuel k hm hr hpa
    have hit : (∃ p1 evs, profile_iterate p (o k) = (p1, evs, true)) ∨
        (∃ p1 evs, profile_iterate p (o k) = (p1, evs, false) ∧ p1.running = false) := by
      unfold profile_iterate
      rw [if_neg (by simp [hpa]), mode_step_repair p (o k) hm]
      cases hsr : streak_repair p.user (max GLOBAL_MIN_DELAY p.delay) (o k).now
          (o k).repairCreate (o k).repairUpdate with
      | error e => exact Or.inl ⟨_, _, rfl⟩
      | ok res => exact Or.inr ⟨_, _, rfl, check_targets_stopped _ rfl⟩
    obtain ⟨p1, evs, hit⟩ | ⟨p1, evs, hit, hstop⟩ := hit
    · unfold profile_run
      rw [if_pos hr, hit]
      rfl
    · unfold profile_run
      rw [if_pos hr, hit]
      simp only []
      rw [if_neg (by simp : ¬((p1, evs, false).2.2 = true))]
      have hrest := profile_run_stopped o fuel (k + 1) p1 hstop
      simp [hrest, hstop]

/-- Concrete user for the C3 witness: observed streak 3, current-streak
window spanning 5 days (so `expected = 5` and the deficit is 2). -/
def C3_user : UserInfo := { streak := 3, streakData := some (0, 4 * 86400) }

/-- All-success session-create stream for the C3 witness. -/
def C3_cr : Nat → Nat → HttpTry (Option (Option String)) :=
  fun _ _ => .resp 200 none (some (some "s"))

/-- All-success session-finalize stream for the C3 witness. -/
def C3_up : Nat → Nat → HttpTry String := fun _ _ => .resp 200 none "ok"

/-- A running streak-repair profile for the C3 witness. -/
def C3_repair_profile : ProfileState :=
  { id := 2, mode := "streak_repair", running := true, user := some C3_user }

/-- A concrete instance of the C3 theorem: expected 5, observed 3, two
backfill attempts, and the one-shot stop after one loop iteration. -/
theorem claim_C3_witness :
    (∃ res : RepairResult,
      streak_repair (some C3_user) 1 1000000 C3_cr C3_up = .ok res ∧
      (let expected : Int := max 1 (((4 * 86400 : Int) - 0).fdiv 86400 + 1)
       let need : Nat := (max 0 (expected - C3_user.streak)).toNat
       res.attemptTs = (List.range need).map (fun j : Nat => 1000000 - ((j : Int) + 1) * 86400) ∧
       res.attemptTs.length = need ∧
       res.sleeps = List.replicate need (1 : ℚ) ∧
       res.sleeps.length = res.attemptTs.length ∧
       res.worked = (List.range need).countP (fun j => bump_ok C3_user C3_cr C3_up j) ∧
       res.finalStreak = C3_user.streak + res.worked ∧
       res.reason = (if res.worked = 0 then "no_change" else "ok") ∧
       List.Pairwise (fun a b => b < a) res.attemptTs))
    ∧ (profile_run (fun _ => demo_oracle) (0 + 1) 0 C3_repair_profile).1.running = false :=
  ⟨claim_C3_streak_repair.1 C3_user 1 1000000 0 (4 * 86400) C3_cr C3_up rfl
     (fun i => by
       simp [show bump_result C3_user C3_cr C3_up i = .ok (true, "ok") from rfl]),
   claim_C3_streak_repair.2.2 C3_repair_profile (fun _ => demo_oracle) 0 0 rfl rfl rfl⟩

/-! ### C4: zero-effect experience farm -/

/-- Reduction of `mode_step` for a profile in `xp` mode. -/
theorem mode_step_xp (p : ProfileState) (o : IterOracle) (hm : p.mode = "xp") :
    mode_step p o =
      (match farm_xp_once p.user o.xpStream with
       | .error _ => (p, [Event.xpAction], true)
       | .ok gained =>
           if gained > 0 then
             ({ map_user p (fun u => { u with totalXp := u.totalXp + gained }) with
                last_msg := EMO_xp ++ " +" ++ toString gained ++ " XP" },
              [Event.xpAction], false)
           else ({ p with last_msg := EMO_err ++ " xp fail" }, [Event.xpAction], false)) := by
  unfold mode_step
  rw [hm]
  rfl

/-- A running xp-mode profile with a default snapshot. -/
def C4_profile : ProfileState := { id := 1, mode := "xp", running := true, user := some {} }

/-- C4 counterexample: a 2xx experience-farm response reporting zero
awarded experience is recorded by the worker loop as a failure
("xp fail" with the error icon), not as a success with zero delta. -/
theorem claim_C4_cex :
    demo_oracle.xpStream 0 = HttpTry.resp 200 none 0
    ∧ (mode_step C4_profile demo_oracle).1.last_msg = EMO_err ++ " xp fail"
    ∧ profile_iterate C4_profile demo_oracle
        = ({ C4_profile with last_msg := EMO_err ++ " xp fail" },
           [Event.xpAction, Event.sleep], false) :=
  ⟨rfl, rfl, rfl⟩

/-- C4 amended: the worker loop treats `gained > 0` as the success
criterion for the xp strategy, so a 200 response with zero awarded
experience is recorded as a failure ("xp fail") with the snapshot
unchanged, indistinguishable from a non-2xx outcome; only a strictly
positive award is recorded as a success and added to the snapshot. -/
theorem claim_C4_amended :
    (∀ (p : ProfileState) (o : IterOracle) (u : UserInfo),
      p.mode = "xp" → p.user = some u →
      (duo_request o.xpStream).result = .ok (200, (0 : Int)) →
      mode_step p o
        = ({ p with last_msg := EMO_err ++ " xp fail" }, [Event.xpAction], false))
    ∧ (∀ (p : ProfileState) (o : IterOracle) (u : UserInfo) (g : Int),
      p.mode = "xp" → p.user = some u → 0 < g →
      (duo_request o.xpStream).result = .ok (200, g) →
      mode_step p o
        = ({ p with
              user := some ({ u with totalXp := u.totalXp + g } : UserInfo),
              last_msg := EMO_xp ++ " +" ++ toString g ++ " XP" },
           [Event.xpAction], false)) := by
  constructor
  · intro p o u hm hu hreq
    rw [mode_step_xp p o hm]
    have hfx : farm_xp_once p.user o.xpStream = .ok 0 := by
      unfold farm_xp_once
      rw [hu]
      dsimp only
      rw [hreq]
      rfl
    rw [hfx]
    dsimp only
    rw [if_neg (by omega : ¬((0 : Int) > 0))]
  · intro p o u g hm hu hg hreq
    rw [mode_step_xp p o hm]
    have hfx : farm_xp_once p.user o.xpStream = .ok g := by
      unfold farm_xp_once
      rw [hu]
      dsimp only
      rw [hreq]
      rfl
    rw [hfx]
    dsimp only
    rw [if_pos hg]
    simp [map_user, hu]

/-- Benign oracle whose xp endpoint awards 7 XP. -/
def demo_oracle7 : IterOracle := { demo_oracle with xpStream := fun _ => .resp 200 none 7 }

/-- A concrete instance of the C4 theorem: zero award is recorded as
"xp fail"; a positive award of 7 is recorded as "+7 XP". -/
theorem claim_C4_witness :
    mode_step C4_profile demo_oracle
      = ({ C4_profile with last_msg := EMO_err ++ " xp fail" }, [Event.xpAction], false)
    ∧ mode_step C4_profile demo_oracle7
      = ({ C4_profile with
            user := some ({ ({} : UserInfo) with totalXp := ({} : UserInfo).totalXp + 7 } : UserInfo),
            last_msg := EMO_xp ++ " +" ++ toString (7 : Int) ++ " XP" },
         [Event.xpAction], false) :=
  ⟨claim_C4_amended.1 C4_profile demo_oracle {} rfl rfl rfl,
   claim_C4_amended.2 C4_profile demo_oracle7 {} 7 rfl rfl (by norm_num) rfl⟩

/-! ### C5 and C9: dispatcher behavior on malformed and stopped targets -/

/-- A stopped profile used by the dispatcher counterexamples. -/
def stopped_profile : ProfileState := { id := 1, mode := "xp", running := false }

/-- C5 counterexample: `mode abc xp` (non-numeric profile id) raises an
uncaught error out of the dispatcher instead of being silently ignored,
and so does a `targets` command with a non-numeric threshold value. -/
theorem claim_C5_cex :
    handle_cmd "mode abc xp" [stopped_profile] = .raised [stopped_profile]
    ∧ (handle_cmd "targets 1 xp=zz" [stopped_profile]).isRaised = true :=
  ⟨rfl, rfl⟩

/-- C5 amended: unknown command words, unknown profile ids, and
non-numeric ids for `pause`/`resume`/`stop` are silently ignored with no
state change; but `mode` with a non-numeric profile id, and `targets`
with a non-numeric profile id or threshold value, raise an uncaught
error out of the dispatcher (only the pause/resume/stop branch wraps
`int(...)` in try/except). -/
theorem claim_C5_amended :
    (∀ ps : List ProfileState, handle_cmd "pause abc" ps = .ok ps)
    ∧ (∀ ps : List ProfileState, handle_cmd "bogus 1 2" ps = .ok ps)
    ∧ (∀ ps : List ProfileState, find_profile ps 99 = none →
        handle_cmd "pause 99" ps = .ok ps)
    ∧ (∀ ps : List ProfileState, find_profile ps 99 = none →
        handle_cmd "mode 99 gem" ps = .ok ps)
    ∧ (∀ ps : List ProfileState, find_profile ps 99 = none →
        handle_cmd "targets 99 xp=5" ps = .ok ps)
    ∧ (∀ ps : List ProfileState, handle_cmd "mode abc xp" ps = .raised ps)
    ∧ (∀ ps : List ProfileState, handle_cmd "targets abc xp=5" ps = .raised ps)
    ∧ (∀ (ps : List ProfileState) (q : ProfileState), find_profile ps 1 = some q →
        (handle_cmd "targets 1 xp=zz" ps).isRaised = true) := by
  refine ⟨fun ps => rfl, fun ps => rfl, ?_, ?_, ?_, fun ps => rfl, fun ps => rfl, ?_⟩
  · intro ps h
    have e : handle_cmd "pause 99" ps
        = (match find_profile ps 99 with
           | none => CmdOutcome.ok ps
           | some _ => CmdOutcome.ok (set_profile ps 99
               (fun q => { q with paused := true, last_msg := EMO_pause ++ " paused" }))) := rfl
    rw [e, h]
  · intro ps h
    have e : handle_cmd "mode 99 gem" ps
        = (match find_profile ps 99 with
           | none => CmdOutcome.ok ps
           | some _ => CmdOutcome.ok (set_profile ps 99
               (fun q => { q with mode := "gem", last_msg := "mode → " ++ "gem" }))) := rfl
    rw [e, h]
  · intro ps h
    have e : handle_cmd "targets 99 xp=5" ps
        = (match find_profile ps 99 with
           | none => CmdOutcome.ok ps
           | some q =>
               if (apply_targets ["xp=5"] q.goals).2 then
                 CmdOutcome.raised (set_profile ps 99
                   (fun r => { r with goals := (apply_targets ["xp=5"] q.goals).1 }))
               else
                 CmdOutcome.ok (set_profile ps 99
                   (fun r => { r with goals := (apply_targets ["xp=5"] q.goals).1,
                                      last_msg := "targets set" }))) := rfl
    rw [e, h]
  · intro ps q h
    have e : handle_cmd "targets 1 xp=zz" ps
        = (match find_profile ps 1 with
           | none => CmdOutcome.ok ps
           | some q =>
               if (apply_targets ["xp=zz"] q.goals).2 then
                 CmdOutcome.raised (set_profile ps 1
                   (fun r => { r with goals := (apply_targets ["xp=zz"] q.goals).1 }))
               else
                 CmdOutcome.ok (set_profile ps 1
                   (fun r => { r with goals := (apply_targets ["xp=zz"] q.goals).1,
                                      last_msg := "targets set" }))) := rfl
    rw [e, h]
    dsimp only
    rw [show apply_targets ["xp=zz"] q.goals = (q.goals, true) from rfl]
    rfl

/-- A concrete instance of the C5 theorem on a one-profile list. -/
theorem claim_C5_witness :
    handle_cmd "pause 99" [stopped_profile] = .ok [stopped_profile]
    ∧ handle_cmd "mode 99 gem" [stopped_profile] = .ok [stopped_profile]
    ∧ handle_cmd "targets 99 xp=5" [stopped_profile] = .ok [stopped_profile]
    ∧ (handle_cmd "targets 1 xp=zz" [stopped_profile]).isRaised = true :=
  ⟨claim_C5_amended.2.2.1 [stopped_profile] rfl,
   claim_C5_amended.2.2.2.1 [stopped_profile] rfl,
   claim_C5_amended.2.2.2.2.1 [stopped_profile] rfl,
   claim_C5_amended.2.2.2.2.2.2.2 [stopped_profile] stopped_profile rfl⟩

/-- C9 counterexample: `pause 1` on a stopped profile still mutates it
(paused flag set, last-status message overwritten); the dispatcher only
checks that the profile exists, not that it is unstopped. -/
theorem claim_C9_cex :
    stopped_profile.running = false
    ∧ stopped_profile.paused = false
    ∧ handle_cmd "pause 1" [stopped_profile]
        = .ok [{ stopped_profile with paused := true, last_msg := EMO_pause ++ " paused" }]
    ∧ ({ stopped_profile with paused := true, last_msg := EMO_pause ++ " paused" }
        : ProfileState) ≠ stopped_profile :=
  ⟨rfl, rfl, rfl,
   fun hcon => absurd (congrArg ProfileState.paused hcon) (by decide)⟩

/-- C9 amended: `pause <id>` sets the paused flag and the paused
last-status message on the first profile with that id whenever one
exists, regardless of its run-state (stopped profiles included); it is
a no-op only for unknown ids. -/
theorem claim_C9_amended :
    (∀ (ps : List ProfileState) (q : ProfileState), find_profile ps 1 = some q →
      handle_cmd "pause 1" ps = .ok (set_profile ps 1
        (fun r => { r with paused := true, last_msg := EMO_pause ++ " paused" })))
    ∧ (∀ ps : List ProfileState, find_profile ps 1 = none →
        handle_cmd "pause 1" ps = .ok ps) := by
  have e : ∀ ps : List ProfileState, handle_cmd "pause 1" ps
      = (match find_profile ps 1 with
         | none => CmdOutcome.ok ps
         | some _ => CmdOutcome.ok (set_profile ps 1
             (fun r => { r with paused := true, last_msg := EMO_pause ++ " paused" }))) :=
    fun ps => rfl
  constructor
  · intro ps q h
    rw [e ps, h]
  · intro ps h
    rw [e ps, h]

/-- A concrete instance of the C9 theorem: pausing the stopped profile
with id 1 applies the pause mutation to it. -/
theorem claim_C9_witness :
    handle_cmd "pause 1" [stopped_profile]
      = .ok (set_profile [stopped_profile] 1
          (fun r => { r with paused := true, last_msg := EMO_pause ++ " paused" })) :=
  claim_C9_amended.1 [stopped_profile] stopped_profile rfl

/-! ### C8: pause/resume round trip -/

theorem set_profile_not_found (f : ProfileState → ProfileState) :
    ∀ (ps : List ProfileState) (pid : Int),
      find_profile ps pid = none → set_profile ps pid f = ps := by
  intro ps
  induction ps with
  | nil => intro pid h; rfl
  | cons a rest ih =>
      intro pid h
      unfold find_profile at h
      rw [List.find?_cons] at h
      by_cases ha : (a.id == pid) = true
      · simp [ha] at h
      · have ha2 : (a.id == pid) = false := by simpa using ha
        simp only [ha2] at h
        unfold set_profile
        rw [if_neg ha, ih pid h]

theorem find_profile_set (f : ProfileState → ProfileState)
    (hid : ∀ q, (f q).id = q.id) :
    ∀ (ps : List ProfileState) (pid : Int) (q : ProfileState),
      find_profile ps pid = some q →
      find_profile (set_profile ps pid f) pid = some (f q) := by
  intro ps
  induction ps with
  | nil => intro pid q h; cases h
  | cons a rest ih =>
      intro pid q h
      unfold find_profile at h
      rw [List.find?_cons] at h
      by_cases ha : (a.id == pid) = true
      · simp only [ha] at h
        injection h with h
        unfold set_profile
        rw [if_pos ha]
        unfold find_profile
        rw [List.find?_cons]
        have hfa : ((f a).id == pid) = true := by rw [hid a]; exact ha
        simp only [hfa]
        rw [h]
      · have ha2 : (a.id == pid) = false := by simpa using ha
        simp only [ha2] at h
        unfold set_profile
        rw [if_neg ha]
        unfold find_profile
        rw [List.find?_cons]
        simp only [ha2]
        exact ih pid q h

theorem set_profile_comp (f g : ProfileState → ProfileState)
    (hid : ∀ q, (f q).id = q.id) :
    ∀ (ps : List ProfileState) (pid : Int),
      set_profile (set_profile ps pid f) pid g
        = set_profile ps pid (fun q => g (f q)) := by
  have eq_cons : ∀ (b : ProfileState) (l : List ProfileState) (pid : Int)
      (h : ProfileState → ProfileState),
      set_profile (b :: l) pid h
        = if (b.id == pid) = true then h b :: l else b :: set_profile l pid h :=
    fun b l pid h => rfl
  intro ps
  induction ps with
  | nil => intro pid; rfl
  | cons a rest ih =>
      intro pid
      by_cases ha : (a.id == pid) = true
      · have hfa : ((f a).id == pid) = true := by rw [hid a]; exact ha
        rw [eq_cons a rest pid f, if_pos ha,
            eq_cons (f a) rest pid g, if_pos hfa,
            eq_cons a rest pid (fun q => g (f q)), if_pos ha]
      · rw [eq_cons a rest pid f, if_neg ha,
            eq_cons a (set_profile rest pid f) pid g, if_neg ha,
            eq_cons a rest pid (fun q => g (f q)), if_neg ha, ih pid]

/-- C8: `pause 1` immediately followed by `resume 1` leaves every
profile field except the paused flag and the last-status message exactly
as it was (snapshot, baseline, goals, strategy, run-state untouched),
whether or not profile 1 exists; and a paused profile's loop iteration
performs no strategy work and no state change, only the short poll
sleep. -/
theorem claim_C8_pause_resume :
    (∀ ps : List ProfileState,
      (handle_cmd "resume 1" ((handle_cmd "pause 1" ps).profiles)).profiles
        = set_profile ps 1
            (fun q => { q with paused := false, last_msg := EMO_resume ++ " resumed" }))
    ∧ (∀ (p : ProfileState) (o : IterOracle), p.paused = true →
        profile_iterate p o = (p, [Event.pollSleep], false)) := by
  have epause : ∀ ps : List ProfileState, handle_cmd "pause 1" ps
      = (match find_profile ps 1 with
         | none => CmdOutcome.ok ps
         | some _ => CmdOutcome.ok (set_profile ps 1
             (fun r => { r with paused := true, last_msg := EMO_pause ++ " paused" }))) :=
    fun ps => rfl
  have eresume : ∀ ps : List ProfileState, handle_cmd "resume 1" ps
      = (match find_profile ps 1 with
         | none => CmdOutcome.ok ps
         | some _ => CmdOutcome.ok (set_profile ps 1
             (fun r => { r with paused := false, last_msg := EMO_resume ++ " resumed" }))) :=
    fun ps => rfl
  constructor
  · intro ps
    cases h : find_profile ps 1 with
    | none =>
        rw [epause ps, h]
        dsimp only [CmdOutcome.profiles]
        rw [eresume ps, h]
        dsimp only [CmdOutcome.profiles]
        rw [set_profile_not_found _ ps 1 h]
    | some q =>
        rw [epause ps, h]
        dsimp only [CmdOutcome.profiles]
        rw [eresume _]
        rw [find_profile_set
              (fun r => { r with paused := true, last_msg := EMO_pause ++ " paused" })
              (fun r => rfl) ps 1 q h]
        dsimp only [CmdOutcome.profiles]
        rw [set_profile_comp
              (fun r => { r with paused := true, last_msg := EMO_pause ++ " paused" })
              (fun r => { r with paused := false, last_msg := EMO_resume ++ " resumed" })
              (fun r => rfl) ps 1]
  · intro p o hp
    unfold profile_iterate
    rw [if_pos hp]

/-- A paused profile for the C8 witness. -/
def paused_profile : ProfileState :=
  { id := 3, mode := "gem", running := true, paused := true, user := some {} }

/-- A concrete instance of the C8 theorem: the paused worker only polls. -/
theorem claim_C8_witness :
    profile_iterate paused_profile demo_oracle
      = (paused_profile, [Event.pollSleep], false) :=
  claim_C8_pause_resume.2 paused_profile demo_oracle rfl

/-! ### C10: undecodable JWT payload -/

/-- The state a profile is left in when the baseline fetch finds no
user: stopped, with the `JWT/Info fail` diagnostic message. -/
def jwt_fail_state (p : ProfileState) : ProfileState :=
  { p with running := false, last_msg := EMO_err ++ " JWT/Info fail" }

/-- C10: for a profile whose JWT payload could not be decoded
(`_decode_sub` returned `None`, so `client.sub = none`), `get_user_info`
returns `None` without issuing a single HTTP request, the whole worker
terminates during initialization with the `JWT/Info fail` diagnostic,
the run-state never becomes running, no strategy event is ever emitted,
and the total HTTP attempt count of the worker (including the final
best-effort refresh) is zero. -/
theorem claim_C10_bad_jwt (p : ProfileState)
    (initS finalS : Nat → HttpTry UserInfo) (o : Nat → IterOracle) (fuel : Nat)
    (h : p.sub = none) :
    get_user_info p.sub initS = (.ok none, 0)
    ∧ profile_worker p initS finalS o fuel = (jwt_fail_state p, [], 0)
    ∧ (jwt_fail_state p).running = false
    ∧ (jwt_fail_state p).last_msg = EMO_err ++ " JWT/Info fail" := by
  have hg : ∀ s : Nat → HttpTry UserInfo, get_user_info p.sub s = (.ok none, 0) := by
    intro s
    unfold get_user_info
    rw [h]
    rfl
  refine ⟨hg initS, ?_, rfl, rfl⟩
  have hinit : profile_init p initS = (jwt_fail_state p, 0) := by
    unfold profile_init jwt_fail_state
    rw [hg initS]
  unfold profile_worker
  rw [hinit]
  dsimp only
  rw [if_neg (by simp [jwt_fail_state] : ¬((jwt_fail_state p).running = true))]
  have hfin : final_refresh (jwt_fail_state p) finalS = (jwt_fail_state p, 0) := by
    unfold final_refresh
    rw [show (jwt_fail_state p).sub = p.sub from rfl, hg finalS]
  rw [hfin]
  rfl

/-- A profile whose JWT payload is undecodable (`sub = none`). -/
def bad_jwt_profile : ProfileState := { id := 4, mode := "xp", jwt := "not-a-jwt", sub := none }

/-- A concrete instance of the C10 theorem. -/
theorem claim_C10_witness :
    get_user_info bad_jwt_profile.sub (fun _ => HttpTry.resp 200 none ({} : UserInfo))
      = (.ok none, 0)
    ∧ profile_worker bad_jwt_profile (fun _ => HttpTry.resp 200 none ({} : UserInfo))
        (fun _ => HttpTry.resp 200 none ({} : UserInfo)) (fun _ => demo_oracle) 5
        = (jwt_fail_state bad_jwt_profile, [], 0)
    ∧ (jwt_fail_state bad_jwt_profile).running = false
    ∧ (jwt_fail_state bad_jwt_profile).last_msg = EMO_err ++ " JWT/Info fail" :=
  claim_C10_bad_jwt bad_jwt_profile
    (fun _ => HttpTry.resp 200 none ({} : UserInfo))
    (fun _ => HttpTry.resp 200 none ({} : UserInfo)) (fun _ => demo_oracle) 5 rfl

/-! ### C6: rotating-combo phase order -/

/-- Reduction of `mode_step` for a profile in combo mode. -/
theorem mode_step_combo (p : ProfileState) (o : IterOracle) (hm : p.mode = "combo") :
    mode_step p o =
      (match farm_xp_once p.user o.xpStream with
       | .error _ => (p, [Event.xpAction], true)
       | .ok gained =>
           let p1 := if gained > 0 then { map_user p (fun u => { u with totalXp := u.totalXp + gained }) with last_msg := EMO_xp ++ " +" ++ toString gained ++ " XP" } else p
           match farm_gem_once p1.sub p1.user o.gemStream with
           | .error _ => (p1, [Event.xpAction, Event.sleep, Event.gemAction], true)
           | .ok ok =>
               let p2 := if ok then { map_user p1 (fun u => { u with gems := u.gems + 30 }) with last_msg := EMO_gem ++ " +30 gems" } else p1
               match p2.user with
               | none => (p2, [Event.xpAction, Event.sleep, Event.gemAction], true)
               | some u =>
                   let ts := (o.now - 86400) - max 0 (u.streak - p2.baseline_streak) * 86400
                   match streak_bump_once (some u) o.createStream o.updateStream ts with
                   | .error _ => (p2, [Event.xpAction, Event.sleep, Event.gemAction, Event.streakAction], true)
                   | .ok (ok2, why) =>
                       let p3 := if ok2 then { map_user p2 (fun v => { v with streak := v.streak + 1 }) with last_msg := EMO_streak ++ " +1 streak" } else { p2 with last_msg := EMO_err ++ " streak: " ++ why }
                       (p3, [Event.xpAction, Event.sleep, Event.gemAction, Event.streakAction], false)) := by
  unfold mode_step
  rw [hm]
  rfl

/-- C6: in combo mode, whenever no phase raises a transport error
(whatever the phase statuses are, success or failure), one iteration
performs the experience action, then one jittered sleep, then the
currency action, then the streak action, in that fixed order; the
iteration does not raise; the final last-status message is exactly the
streak (most recent) phase's message; and the full loop iteration
appends only the inter-iteration sleep.  A failed xp or gem phase does
not abort the later phases: the event list is the same for every
status. -/
theorem claim_C6_combo (p : ProfileState) (o : IterOracle) (u : UserInfo)
    (xg : Int) (gs : Nat) (b : Bool) (w : String)
    (hm : p.mode = "combo") (hpa : p.paused = false) (hu : p.user = some u)
    (hx : farm_xp_once p.user o.xpStream = .ok xg)
    (hg : (duo_request o.gemStream).result = .ok (gs, ()))
    (hb : streak_bump_once (some u) o.createStream o.updateStream 0 = .ok (b, w)) :
    ∃ p3 : ProfileState,
      mode_step p o
        = (p3, [Event.xpAction, Event.sleep, Event.gemAction, Event.streakAction], false)
      ∧ p3.last_msg
        = (if b then EMO_streak ++ " +1 streak" else EMO_err ++ " streak: " ++ w)
      ∧ profile_iterate p o
        = (check_targets p3,
           [Event.xpAction, Event.sleep, Event.gemAction, Event.streakAction, Event.sleep],
           false) := by
  have hbv : ∀ (v : UserInfo) (ts : Int),
      streak_bump_once (some v) o.createStream o.updateStream ts = .ok (b, w) :=
    fun v ts => hb
  have hgm : ∀ (sub : Option String) (v : UserInfo),
      ∃ r : Bool, farm_gem_once sub (some v) o.gemStream = .ok r := by
    intro sub v
    unfold farm_gem_once
    by_cases hc : (optStrTruthy sub && (some v).isSome) = true
    · rw [if_pos hc, hg]
      exact ⟨_, rfl⟩
    · rw [if_neg hc]
      exact ⟨false, rfl⟩
  have hms : ∃ p3 : ProfileState,
      mode_step p o
        = (p3, [Event.xpAction, Event.sleep, Event.gemAction, Event.streakAction], false)
      ∧ p3.last_msg
        = (if b then EMO_streak ++ " +1 streak" else EMO_err ++ " streak: " ++ w) := by
    rw [mode_step_combo p o hm, hx]
    dsimp only
    by_cases h1 : xg > 0
    · rw [if_pos h1]
      simp only [map_user, hu, Option.map_some']
      obtain ⟨g1, hg1⟩ := hgm p.sub ({ u with totalXp := u.totalXp + xg })
      rw [hg1]
      dsimp only
      cases g1
      · rw [if_neg (by simp : ¬(false = true))]
        simp only [map_user, hu, Option.map_some']
        rw [hbv]
        dsimp only
        refine ⟨_, rfl, ?_⟩
        cases b <;> rfl
      · rw [if_pos rfl]
        simp only [map_user, hu, Option.map_some']
        rw [hbv]
        dsimp only
        refine ⟨_, rfl, ?_⟩
        cases b <;> rfl
    · rw [if_neg h1]
      obtain ⟨g1, hg1⟩ := hgm p.sub u
      rw [show farm_gem_once p.sub p.user o.gemStream = .ok g1 from hu ▸ hg1]
      dsimp only
      cases g1
      · rw [if_neg (by simp : ¬(false = true)), hu]
        dsimp only
        rw [hbv]
        dsimp only
        refine ⟨_, rfl, ?_⟩
        cases b <;> rfl
      · rw [if_pos rfl]
        simp only [map_user, hu, Option.map_some']
        rw [hbv]
        dsimp only
        refine ⟨_, rfl, ?_⟩
        cases b <;> rfl
  obtain ⟨p3, hstep, hmsg⟩ := hms
  refine ⟨p3, hstep, hmsg, ?_⟩
  unfold profile_iterate
  rw [if_neg (by simp [hpa]), hstep]
  rfl

/-- Combo-mode profile for the C6 witness. -/
def combo_profile : ProfileState := { id := 5, mode := "combo", running := true, user := some {} }

/-- Oracle for the C6 witness: the xp phase fails with a 500 after
retries, the gem phase succeeds, the streak finalize fails with a 404,
so the iteration's final message is the streak failure and all three
actions still run in order. -/
def combo_oracle : IterOracle :=
  { demo_oracle with
    xpStream := fun _ => .resp 500 none 0
    updateStream := fun _ => .resp 404 none "boom" }

/-- A concrete instance of the C6 theorem: even with a failing xp phase
and a failing streak finalize, all three phases run in order and the
final message is the streak diagnostic. -/
theorem claim_C6_witness :
    ∃ p3 : ProfileState,
      mode_step combo_profile combo_oracle
        = (p3, [Event.xpAction, Event.sleep, Event.gemAction, Event.streakAction], false)
      ∧ p3.last_msg
        = (if false then EMO_streak ++ " +1 streak"
           else EMO_err ++ " streak: " ++ "404:boom")
      ∧ profile_iterate combo_profile combo_oracle
        = (check_targets p3,
           [Event.xpAction, Event.sleep, Event.gemAction, Event.streakAction, Event.sleep],
           false) :=
  claim_C6_combo combo_profile combo_oracle {} 0 200 false "404:boom"
    rfl rfl rfl rfl rfl rfl

end ToolDuo
